import Mathlib

/-!
# Credential Preset resolution and injection engine — verification

A shallow embedding of the dashboard's credential-preset core: the
Visibility Resolver (`IsPresetVisible`, `GetPreset`, `GetPresets`) and the
Credential Binder (`SetCloudCredentials`), together with the SSH user-name
lookup (`GetSSHUserName`) from
`modules/api/pkg/handler/v2/cluster/cluster.go`.

The resolver/binder implementation file is not part of the sampled
sources; only its test suite
(`modules/api/pkg/provider/kubernetes/preset_test.go`) is.  The
definitions below are therefore modelled from the specification's
description of the component, with every point on which the test suite
pins concrete behaviour (expected outputs, exact error strings) taken
from the tests.  Each such definition carries a doc comment recording
what was modelled.
-/

namespace Dashboard

/-! ## Data model

Provider identifiers and per-provider credential bundles, mirroring
`kubermaticv1.PresetSpec` as exercised by `preset_test.go`.  Every Go
pointer field becomes an `Option`; string fields default to `""` and
boolean fields to `false`, matching Go zero values. -/

/-- The cloud-provider identifiers appearing in the sampled tests.
`name` is the identifier as it appears in error messages
(`"the preset … doesn't contain credential for Azure provider"`). -/
inductive Provider where
  | fake | gcp | aws | hetzner | packet | digitalocean
  | openstack | vsphere | azure | kubevirt | alibaba
deriving DecidableEq, Repr

def Provider.name : Provider → String
  | .fake => "Fake"
  | .gcp => "GCP"
  | .aws => "AWS"
  | .hetzner => "Hetzner"
  | .packet => "Packet"
  | .digitalocean => "Digitalocean"
  | .openstack => "Openstack"
  | .vsphere => "VSphere"
  | .azure => "Azure"
  | .kubevirt => "Kubevirt"
  | .alibaba => "Alibaba"

structure FakeBundle where
  token : String := ""
deriving DecidableEq, Repr

structure GCPBundle where
  serviceAccount : String := ""
deriving DecidableEq, Repr

structure AWSBundle where
  accessKeyID : String := ""
  secretAccessKey : String := ""
deriving DecidableEq, Repr

structure HetznerBundle where
  token : String := ""
  network : String := ""
deriving DecidableEq, Repr

structure PacketBundle where
  apiKey : String := ""
  projectID : String := ""
  billingCycle : String := ""
deriving DecidableEq, Repr

structure DigitaloceanBundle where
  token : String := ""
deriving DecidableEq, Repr

structure OpenstackBundle where
  username : String := ""
  password : String := ""
  project : String := ""
  domain : String := ""
deriving DecidableEq, Repr

structure VSphereBundle where
  username : String := ""
  password : String := ""
  storagePolicy : String := ""
deriving DecidableEq, Repr

structure AzureBundle where
  subscriptionID : String := ""
  clientID : String := ""
  clientSecret : String := ""
  tenantID : String := ""
deriving DecidableEq, Repr

structure KubevirtBundle where
  kubeconfig : String := ""
deriving DecidableEq, Repr

structure AlibabaBundle where
  accessKeyID : String := ""
  accessKeySecret : String := ""
deriving DecidableEq, Repr

/-- `kubermaticv1.PresetSpec`: visibility constraints plus at most one
credential bundle per provider. -/
structure PresetSpec where
  requiredEmails : List String := []
  projects : List String := []
  fake : Option FakeBundle := none
  gcp : Option GCPBundle := none
  aws : Option AWSBundle := none
  hetzner : Option HetznerBundle := none
  packet : Option PacketBundle := none
  digitalocean : Option DigitaloceanBundle := none
  openstack : Option OpenstackBundle := none
  vsphere : Option VSphereBundle := none
  azure : Option AzureBundle := none
  kubevirt : Option KubevirtBundle := none
  alibaba : Option AlibabaBundle := none
deriving DecidableEq, Repr

/-- `kubermaticv1.Preset`: object name plus spec. -/
structure Preset where
  name : String
  spec : PresetSpec
deriving DecidableEq, Repr

/-! ## Visibility resolver -/

/-- The domain portion of an email address: the substring after the first
`"@"`, or `none` when the address contains no `"@"`
(Go: `strings.SplitN(email, "@", 2)`). -/
def emailDomain (email : String) : Option String :=
  match email.data.dropWhile (fun c => c ≠ '@') with
  | [] => none
  | _ :: rest => some ⟨rest⟩

/-- Modelled from the spec: one entry of `requiredEmails` matches the
user's email either by exact equality (entry containing `"@"`) or by
comparing the entry against the email's domain portion (entry without
`"@"`).  The spec's §4.1 words say the domain comparison is a *suffix*
test; the repository's own test suite (`TestGetPresets`, "test 1", where
a preset with `requiredEmails = ["com"]` must be excluded for
`test@example.com`) pins it to *equality* of the domain, which is what
is used here.  Comparison is case-sensitive as stored, per the spec. -/
def emailEntryMatches (email entry : String) : Bool :=
  if entry.data.contains '@' then email = entry
  else
    match emailDomain email with
    | some d => d = entry
    | none => false

/-- Modelled from the spec: the spec's §4.1 email rule read literally —
an entry without `"@"` matches whenever the email's domain portion "has
the entry as a suffix".  Kept separate so that it can be compared with
`emailEntryMatches`, the behaviour the repository's tests require. -/
def emailEntryMatchesSuffixRule (email entry : String) : Bool :=
  if entry.data.contains '@' then email = entry
  else
    match emailDomain email with
    | some d => entry.data.isSuffixOf d.data
    | none => false

/-- Modelled from the spec: the email half of the visibility rule — an
empty `requiredEmails` list admits every user, a non-empty one admits a
user whose email matches at least one entry (OR across entries). -/
def emailCheck (requiredEmails : List String) (email : String) : Bool :=
  requiredEmails.isEmpty || requiredEmails.any (emailEntryMatches email)

/-- Modelled from the spec: the project half of the visibility rule — an
empty `projects` list admits every project context, a non-empty one
admits exactly its members.  The no-project context is the empty
string, as passed by the tests. -/
def projectCheck (projects : List String) (projectID : String) : Bool :=
  projects.isEmpty || projects.contains projectID

/-- Modelled from the spec: `IsPresetVisible` — a preset is visible to a
`(userEmail, projectID)` pair when it passes both the email check and
the project check. -/
def IsPresetVisible (preset : Preset) (email projectID : String) : Bool :=
  emailCheck preset.spec.requiredEmails email &&
    projectCheck preset.spec.projects projectID

/-- The error taxonomy of the resolver/binder, with the exact message
strings the test suite expects. -/
inductive PresetError where
  | notFound (name : String)
  | noProvider
  | missingCredential (presetName : String) (provider : Provider)
deriving DecidableEq, Repr

def PresetError.message : PresetError → String
  | .notFound name => "preset.kubermatic.k8c.io \"" ++ name ++ "\" not found"
  | .noProvider => "can not find provider to set credentials"
  | .missingCredential presetName provider =>
      "the preset " ++ presetName ++ " doesn't contain credential for "
        ++ provider.name ++ " provider"

/-- Modelled from the spec: `GetPreset` — fetch all presets from the
store, keep those whose name matches and which are visible, and return
the single match; zero matches yield `NotFound`, deliberately conflating
"does not exist" with "exists but not visible". -/
def GetPreset (presets : List Preset) (email projectID name : String) :
    Except PresetError Preset :=
  match presets.find? (fun p => p.name == name && IsPresetVisible p email projectID) with
  | some p => .ok p
  | none => .error (.notFound name)

/-- Modelled from the spec: `GetPresets` — the same visibility filter
with no name constraint, in store order. -/
def GetPresets (presets : List Preset) (email projectID : String) : List Preset :=
  presets.filter (fun p => IsPresetVisible p email projectID)

/-! ## Credential binder

`kubermaticv1.CloudSpec` (the binding target) and the per-provider field
copy of `SetCloudCredentials`, with the field shapes taken from the
expectations of `TestCredentialEndpoint`. -/

structure FakeCloudSpec where
  token : String := ""
deriving DecidableEq, Repr

structure GCPCloudSpec where
  serviceAccount : String := ""
deriving DecidableEq, Repr

structure AWSCloudSpec where
  accessKeyID : String := ""
  secretAccessKey : String := ""
deriving DecidableEq, Repr

structure HetznerCloudSpec where
  token : String := ""
  network : String := ""
deriving DecidableEq, Repr

structure PacketCloudSpec where
  apiKey : String := ""
  projectID : String := ""
  billingCycle : String := ""
deriving DecidableEq, Repr

structure DigitaloceanCloudSpec where
  token : String := ""
deriving DecidableEq, Repr

structure OpenstackCloudSpec where
  username : String := ""
  password : String := ""
  project : String := ""
  domain : String := ""
  useFloatingIP : Bool := false
deriving DecidableEq, Repr

structure VSphereCloudSpec where
  username : String := ""
  password : String := ""
  storagePolicy : String := ""
deriving DecidableEq, Repr

structure AzureCloudSpec where
  subscriptionID : String := ""
  clientID : String := ""
  clientSecret : String := ""
  tenantID : String := ""
deriving DecidableEq, Repr

structure KubevirtCloudSpec where
  kubeconfig : String := ""
deriving DecidableEq, Repr

structure AlibabaCloudSpec where
  accessKeyID : String := ""
  accessKeySecret : String := ""
deriving DecidableEq, Repr

/-- `kubermaticv1.CloudSpec`: a cluster's cloud-provider configuration,
one variant populated per cluster (Go pointer fields as `Option`s). -/
structure CloudSpec where
  fake : Option FakeCloudSpec := none
  gcp : Option GCPCloudSpec := none
  aws : Option AWSCloudSpec := none
  hetzner : Option HetznerCloudSpec := none
  packet : Option PacketCloudSpec := none
  digitalocean : Option DigitaloceanCloudSpec := none
  openstack : Option OpenstackCloudSpec := none
  vsphere : Option VSphereCloudSpec := none
  azure : Option AzureCloudSpec := none
  kubevirt : Option KubevirtCloudSpec := none
  alibaba : Option AlibabaCloudSpec := none
deriving DecidableEq, Repr

/-- The datacenter configuration consulted for provider defaults, with
the two sub-specs the sampled tests exercise
(`kubermaticv1.DatacenterSpecOpenstack`, `kubermaticv1.DatacenterSpecVSphere`). -/
structure DatacenterSpecOpenstack where
  enforceFloatingIP : Bool := false
deriving DecidableEq, Repr

structure DatacenterSpecVSphere where
  defaultStoragePolicy : String := ""
deriving DecidableEq, Repr

structure Datacenter where
  openstack : Option DatacenterSpecOpenstack := none
  vsphere : Option DatacenterSpecVSphere := none
deriving DecidableEq, Repr

/-- Modelled from the spec: which provider variant of the `CloudSpec` is
populated (the first set variant, in field order; `none` when no
variant is set). -/
def CloudSpec.provider (cs : CloudSpec) : Option Provider :=
  if cs.fake.isSome then some .fake
  else if cs.gcp.isSome then some .gcp
  else if cs.aws.isSome then some .aws
  else if cs.hetzner.isSome then some .hetzner
  else if cs.packet.isSome then some .packet
  else if cs.digitalocean.isSome then some .digitalocean
  else if cs.openstack.isSome then some .openstack
  else if cs.vsphere.isSome then some .vsphere
  else if cs.azure.isSome then some .azure
  else if cs.kubevirt.isSome then some .kubevirt
  else if cs.alibaba.isSome then some .alibaba
  else none

/-- A string-valued fallback: the first non-empty candidate, in order
(preset override, already-set cloud value, derived default). -/
def firstNonEmpty (s fallback : String) : String :=
  if s = "" then fallback else s

/-- The datacenter's Openstack enforce-floating-IP flag (`false` when the
datacenter or its Openstack section is absent). -/
def dcEnforceFloatingIP (dc : Option Datacenter) : Bool :=
  ((dc.bind Datacenter.openstack).map DatacenterSpecOpenstack.enforceFloatingIP).getD false

/-- The datacenter's VSphere default storage policy (`""` when the
datacenter or its VSphere section is absent). -/
def dcDefaultStoragePolicy (dc : Option Datacenter) : String :=
  ((dc.bind Datacenter.vsphere).map DatacenterSpecVSphere.defaultStoragePolicy).getD ""

/-- Modelled from the spec: the per-provider field copy of the binder
(§4.2 step 4) plus the datacenter-sourced defaults (§4.2 step 5): the
Packet billing cycle falls back to `"hourly"`, the VSphere storage
policy to the datacenter's `defaultStoragePolicy`, and the Openstack
`useFloatingIP` flag is raised when the datacenter enforces floating
IPs; each default applies only when the field is not already set and
the preset provides no override.  Expected outputs per provider are
pinned by `TestCredentialEndpoint` tests 1–9, 12, 14. -/
def bindProvider (preset : Preset) (provider : Provider) (cs : CloudSpec)
    (dc : Option Datacenter) : Except PresetError CloudSpec :=
  match provider with
  | .fake =>
    match preset.spec.fake with
    | none => .error (.missingCredential preset.name .fake)
    | some b => .ok { cs with fake := some { token := b.token } }
  | .gcp =>
    match preset.spec.gcp with
    | none => .error (.missingCredential preset.name .gcp)
    | some b => .ok { cs with gcp := some { serviceAccount := b.serviceAccount } }
  | .aws =>
    match preset.spec.aws with
    | none => .error (.missingCredential preset.name .aws)
    | some b =>
      .ok { cs with aws := some { accessKeyID := b.accessKeyID,
                                  secretAccessKey := b.secretAccessKey } }
  | .hetzner =>
    match preset.spec.hetzner with
    | none => .error (.missingCredential preset.name .hetzner)
    | some b =>
      .ok { cs with hetzner := some { token := b.token, network := b.network } }
  | .packet =>
    match preset.spec.packet with
    | none => .error (.missingCredential preset.name .packet)
    | some b =>
      let cur := cs.packet.getD {}
      let upd : PacketCloudSpec :=
        { apiKey := b.apiKey,
          projectID := b.projectID,
          billingCycle :=
            firstNonEmpty b.billingCycle
              (firstNonEmpty cur.billingCycle "hourly") }
      .ok { cs with packet := some upd }
  | .digitalocean =>
    match preset.spec.digitalocean with
    | none => .error (.missingCredential preset.name .digitalocean)
    | some b => .ok { cs with digitalocean := some { token := b.token } }
  | .openstack =>
    match preset.spec.openstack with
    | none => .error (.missingCredential preset.name .openstack)
    | some b =>
      let cur := cs.openstack.getD {}
      let upd : OpenstackCloudSpec :=
        { username := b.username,
          password := b.password,
          project := b.project,
          domain := b.domain,
          useFloatingIP := cur.useFloatingIP || dcEnforceFloatingIP dc }
      .ok { cs with openstack := some upd }
  | .vsphere =>
    match preset.spec.vsphere with
    | none => .error (.missingCredential preset.name .vsphere)
    | some b =>
      let cur := cs.vsphere.getD {}
      let upd : VSphereCloudSpec :=
        { username := b.username,
          password := b.password,
          storagePolicy :=
            firstNonEmpty b.storagePolicy
              (firstNonEmpty cur.storagePolicy (dcDefaultStoragePolicy dc)) }
      .ok { cs with vsphere := some upd }
  | .azure =>
    match preset.spec.azure with
    | none => .error (.missingCredential preset.name .azure)
    | some b =>
      .ok { cs with azure := some { subscriptionID := b.subscriptionID,
                                    clientID := b.clientID,
                                    clientSecret := b.clientSecret,
                                    tenantID := b.tenantID } }
  | .kubevirt =>
    match preset.spec.kubevirt with
    | none => .error (.missingCredential preset.name .kubevirt)
    | some b => .ok { cs with kubevirt := some { kubeconfig := b.kubeconfig } }
  | .alibaba =>
    match preset.spec.alibaba with
    | none => .error (.missingCredential preset.name .alibaba)
    | some b =>
      .ok { cs with alibaba := some { accessKeyID := b.accessKeyID,
                                      accessKeySecret := b.accessKeySecret } }

/-- Modelled from the spec: `SetCloudCredentials` — resolve the preset
through `GetPreset` (propagating `NotFound` unchanged), determine the
populated provider variant (failing with `noProvider` when none is
set), bind that provider's bundle (failing with `missingCredential`
when absent), and return the updated spec.  The result mirrors the Go
`(*CloudSpec, error)` pair: the first component is the returned spec
pointer, the second the returned error. -/
def SetCloudCredentials (presets : List Preset) (email projectID presetName : String)
    (cs : CloudSpec) (dc : Option Datacenter) :
    Option CloudSpec × Option PresetError :=
  match GetPreset presets email projectID presetName with
  | .error e => (none, some e)
  | .ok preset =>
    match cs.provider with
    | none => (none, some .noProvider)
    | some provider =>
      match bindProvider preset provider cs dc with
      | .error e => (none, some e)
      | .ok cs' => (some cs', none)

/-- Whether a preset carries a credential bundle for the given provider. -/
def Preset.hasBundle (p : Preset) : Provider → Bool
  | .fake => p.spec.fake.isSome
  | .gcp => p.spec.gcp.isSome
  | .aws => p.spec.aws.isSome
  | .hetzner => p.spec.hetzner.isSome
  | .packet => p.spec.packet.isSome
  | .digitalocean => p.spec.digitalocean.isSome
  | .openstack => p.spec.openstack.isSome
  | .vsphere => p.spec.vsphere.isSome
  | .azure => p.spec.azure.isSome
  | .kubevirt => p.spec.kubevirt.isSome
  | .alibaba => p.spec.alibaba.isSome

/-! ## SSH user-name lookup

From `modules/api/pkg/handler/v2/cluster/cluster.go` (package `machine`):
`userNameMap`, `GetSSHUserName`, `getDistributionName`,
`getProviderName`.  The Go code finds, by reflection, the first non-nil
pointer field of `apiv1.OperatingSystemSpec` / `apiv1.NodeCloudSpec` and
uses the *field name*; only nil-ness and the field's name are consulted,
so the variants' payloads are elided here (`Option Unit`). -/

/-- `apiv1.OperatingSystemSpec`: one optional variant per supported
distribution (field names as in the Go struct, which are the names
`getDistributionName` returns). -/
structure OperatingSystemSpec where
  ubuntu : Option Unit := none
  containerLinux : Option Unit := none
  flatcar : Option Unit := none
  centos : Option Unit := none
  sles : Option Unit := none
  rhel : Option Unit := none
  rockyLinux : Option Unit := none
  amazonLinux : Option Unit := none
deriving DecidableEq, Repr

/-- `apiv1.NodeCloudSpec`: one optional variant per supported provider. -/
structure NodeCloudSpec where
  digitalocean : Option Unit := none
  aws : Option Unit := none
  azure : Option Unit := none
  openstack : Option Unit := none
  packet : Option Unit := none
  hetzner : Option Unit := none
  vsphere : Option Unit := none
  gcp : Option Unit := none
  kubevirt : Option Unit := none
  alibaba : Option Unit := none
  anexia : Option Unit := none
  nutanix : Option Unit := none
  vmwareCloudDirector : Option Unit := none
deriving DecidableEq, Repr

deriving instance DecidableEq for Except

/-- The static `userNameMap`: `"Provider:Distribution"` → SSH login name. -/
def userNameMap : List (String × String) :=
  [("Digitalocean:Ubuntu", "root"),
   ("Digitalocean:ContainerLinux", "core"),
   ("Digitalocean:Flatcar", "core"),
   ("Hetzner:Ubuntu", "root"),
   ("Azure:Ubuntu", "ubuntu"),
   ("Azure:ContainerLinux", "core"),
   ("Azure:Flatcar", "core"),
   ("Azure:RHEL", "rhel"),
   ("VSphere:Ubuntu", "ubuntu"),
   ("VSphere:ContainerLinux", "core"),
   ("VSphere:Flatcar", "core"),
   ("VSphere:RHEL", "cloud-user"),
   ("AWS:Ubuntu", "ubuntu"),
   ("AWS:ContainerLinux", "core"),
   ("AWS:Flatcar", "core"),
   ("AWS:RHEL", "ec2-user"),
   ("Openstack:RHEL", "cloud-user"),
   ("Openstack:Ubuntu", "ubuntu"),
   ("Openstack:ContainerLinux", "core"),
   ("Openstack:Flatcar", "core"),
   ("Packet:Ubuntu", "root"),
   ("Packet:ContainerLinux", "core"),
   ("Packet:Flatcar", "core"),
   ("GCP:Ubuntu", "ubuntu"),
   ("GCP:RHEL", "cloud-user"),
   ("GCP:ContainerLinux", "core"),
   ("GCP:Flatcar", "core"),
   ("VMwareCloudDirector:Ubuntu", "ubuntu"),
   ("VMwareCloudDirector:ContainerLinux", "core"),
   ("VMwareCloudDirector:Flatcar", "core"),
   ("VMwareCloudDirector:RHEL", "cloud-user")]

/-- `getDistributionName`: the Go field name of the first non-nil
operating-system variant, in struct field order, or the error
`"no operating system set"`. -/
def getDistributionName (os : OperatingSystemSpec) : Except String String :=
  if os.ubuntu.isSome then .ok "Ubuntu"
  else if os.containerLinux.isSome then .ok "ContainerLinux"
  else if os.flatcar.isSome then .ok "Flatcar"
  else if os.centos.isSome then .ok "CentOS"
  else if os.sles.isSome then .ok "SLES"
  else if os.rhel.isSome then .ok "RHEL"
  else if os.rockyLinux.isSome then .ok "RockyLinux"
  else if os.amazonLinux.isSome then .ok "AmazonLinux"
  else .error "no operating system set"

/-- `getProviderName`: the Go field name of the first non-nil node cloud
variant, in struct field order, or the error `"no cloud provider set"`. -/
def getProviderName (cp : NodeCloudSpec) : Except String String :=
  if cp.digitalocean.isSome then .ok "Digitalocean"
  else if cp.aws.isSome then .ok "AWS"
  else if cp.azure.isSome then .ok "Azure"
  else if cp.openstack.isSome then .ok "Openstack"
  else if cp.packet.isSome then .ok "Packet"
  else if cp.hetzner.isSome then .ok "Hetzner"
  else if cp.vsphere.isSome then .ok "VSphere"
  else if cp.gcp.isSome then .ok "GCP"
  else if cp.kubevirt.isSome then .ok "Kubevirt"
  else if cp.alibaba.isSome then .ok "Alibaba"
  else if cp.anexia.isSome then .ok "Anexia"
  else if cp.nutanix.isSome then .ok "Nutanix"
  else if cp.vmwareCloudDirector.isSome then .ok "VMwareCloudDirector"
  else .error "no cloud provider set"

/-- `GetSSHUserName`: look `"Provider:Distribution"` up in `userNameMap`,
falling back to `"unknown"` when the pair is absent; errors only
propagate from `getDistributionName` / `getProviderName`. -/
def GetSSHUserName (os : OperatingSystemSpec) (cp : NodeCloudSpec) :
    Except String String :=
  match getDistributionName os with
  | .error e => .error e
  | .ok distributionName =>
    match getProviderName cp with
    | .error e => .error e
    | .ok providerName =>
      match userNameMap.lookup (providerName ++ ":" ++ distributionName) with
      | some loginName => .ok loginName
      | none => .ok "unknown"

/-- Whether some operating-system variant is populated. -/
def OperatingSystemSpec.hasVariant (os : OperatingSystemSpec) : Bool :=
  os.ubuntu.isSome || os.containerLinux.isSome || os.flatcar.isSome ||
    os.centos.isSome || os.sles.isSome || os.rhel.isSome ||
    os.rockyLinux.isSome || os.amazonLinux.isSome

/-- How many operating-system variants are populated. -/
def OperatingSystemSpec.variantCount (os : OperatingSystemSpec) : Nat :=
  [os.ubuntu.isSome, os.containerLinux.isSome, os.flatcar.isSome,
   os.centos.isSome, os.sles.isSome, os.rhel.isSome,
   os.rockyLinux.isSome, os.amazonLinux.isSome].count true

/-- Whether some node cloud variant is populated. -/
def NodeCloudSpec.hasVariant (cp : NodeCloudSpec) : Bool :=
  cp.digitalocean.isSome || cp.aws.isSome || cp.azure.isSome ||
    cp.openstack.isSome || cp.packet.isSome || cp.hetzner.isSome ||
    cp.vsphere.isSome || cp.gcp.isSome || cp.kubevirt.isSome ||
    cp.alibaba.isSome || cp.anexia.isSome || cp.nutanix.isSome ||
    cp.vmwareCloudDirector.isSome

/-- How many node cloud variants are populated. -/
def NodeCloudSpec.variantCount (cp : NodeCloudSpec) : Nat :=
  [cp.digitalocean.isSome, cp.aws.isSome, cp.azure.isSome,
   cp.openstack.isSome, cp.packet.isSome, cp.hetzner.isSome,
   cp.vsphere.isSome, cp.gcp.isSome, cp.kubevirt.isSome,
   cp.alibaba.isSome, cp.anexia.isSome, cp.nutanix.isSome,
   cp.vmwareCloudDirector.isSome].count true

/-! ## Helper lemmas -/

/-- The email half of the visibility rule, as an existential. -/
theorem emailCheck_eq_true_iff (entries : List String) (email : String) :
    emailCheck entries email = true ↔
      entries = [] ∨ ∃ entry ∈ entries, emailEntryMatches email entry = true := by
  simp [emailCheck, List.any_eq_true, List.isEmpty_iff]

/-- `bindProvider` only ever fails with the `missingCredential` error for
the requested provider. -/
theorem bindProvider_error_eq (p : Preset) (prov : Provider) (cs : CloudSpec)
    (dc : Option Datacenter) (e : PresetError)
    (h : bindProvider p prov cs dc = .error e) :
    e = .missingCredential p.name prov := by
  cases prov <;> simp only [bindProvider] at h <;> split at h <;> simp_all

/-- `bindProvider` fails with `missingCredential` exactly when the preset
carries no bundle for the requested provider. -/
theorem bindProvider_missing_iff (p : Preset) (prov : Provider) (cs : CloudSpec)
    (dc : Option Datacenter) :
    bindProvider p prov cs dc = .error (.missingCredential p.name prov) ↔
      p.hasBundle prov = false := by
  cases prov <;> simp only [bindProvider, Preset.hasBundle] <;> split <;> simp_all

/-! ## Claims -/

/-- **C1** (corrected, counterexample): read literally, the claim's
suffix rule would make a preset with `requiredEmails = ["com"]` visible
to `"test@example.com"` — `"com"` is indeed a suffix of the domain
`"example.com"` — but the behaviour pinned by the repository's own
`TestGetPresets` ("test 1") excludes exactly that preset, so the email
check does not coincide with the suffix rule. -/
theorem c1_suffix_rule_counterexample :
    emailEntryMatchesSuffixRule "test@example.com" "com" = true ∧
    IsPresetVisible
      ⟨"test-2", { requiredEmails := ["com"], fake := some { token := "bbbbb" } }⟩
      "test@example.com" "" = false ∧
    GetPresets
      [⟨"test-1", { fake := some { token := "aaaaa" } }⟩,
       ⟨"test-2", { requiredEmails := ["com"], fake := some { token := "bbbbb" } }⟩,
       ⟨"test-3", { requiredEmails := ["example.com"], fake := some { token := "abc" } }⟩]
      "test@example.com" ""
      = [⟨"test-1", { fake := some { token := "aaaaa" } }⟩,
         ⟨"test-3", { requiredEmails := ["example.com"], fake := some { token := "abc" } }⟩] := by
  refine ⟨by decide, by decide, by decide⟩

/-- **C1** (amended): for every preset with a non-empty `requiredEmails`
list, the email check passes iff the email matches at least one entry,
where a no-`"@"` entry matches exactly when it *equals* the email's
domain portion (the substring after `"@"`, compared case-sensitively);
in particular a preset with `requiredEmails = ["com"]` is *not* visible
to `"test@example.com"`. -/
theorem c1_email_match_is_domain_equality (p : Preset) (email : String)
    (hne : p.spec.requiredEmails ≠ []) :
    (emailCheck p.spec.requiredEmails email = true ↔
      ∃ entry ∈ p.spec.requiredEmails, emailEntryMatches email entry = true) ∧
    (∀ entry, entry.data.contains '@' = false →
      (emailEntryMatches email entry = true ↔ emailDomain email = some entry)) ∧
    IsPresetVisible ⟨"test-2", { requiredEmails := ["com"] }⟩ "test@example.com" "" = false := by
  refine ⟨?_, ?_, by decide⟩
  · rw [emailCheck_eq_true_iff]
    simp [hne]
  · intro entry hat
    simp only [emailEntryMatches, hat, if_neg Bool.false_ne_true]
    cases hd : emailDomain email with
    | none => simp
    | some d => simp [eq_comm]

/-- **C1** (amended) witness. -/
theorem c1_email_match_is_domain_equality_witness :
    (emailCheck ["example.com"] "test@example.com" = true ↔
      ∃ entry ∈ ["example.com"], emailEntryMatches "test@example.com" entry = true) ∧
    (∀ entry, entry.data.contains '@' = false →
      (emailEntryMatches "test@example.com" entry = true ↔
        emailDomain "test@example.com" = some entry)) ∧
    IsPresetVisible ⟨"test-2", { requiredEmails := ["com"] }⟩ "test@example.com" "" = false :=
  c1_email_match_is_domain_equality
    ⟨"test-3", { requiredEmails := ["example.com"] }⟩ "test@example.com" (by decide)

/-- **C7** (confirmed): visibility with a mixed `requiredEmails` list is
a logical OR across the entries — the check passes iff some single
entry matches — and concretely a preset with
`{"test@example.com", "pleaseno.org"}` is visible to
`"test@example.com"` but not to `"foo@bar.com"`. -/
theorem c7_mixed_entries_or_semantics (entries : List String) (email : String) :
    (emailCheck entries email = true ↔
      entries = [] ∨ ∃ entry ∈ entries, emailEntryMatches email entry = true) ∧
    IsPresetVisible
      ⟨"test-1", { requiredEmails := ["test@example.com", "pleaseno.org"],
                   fake := some { token := "aaaaa" } }⟩
      "test@example.com" "" = true ∧
    IsPresetVisible
      ⟨"test-1", { requiredEmails := ["test@example.com", "pleaseno.org"],
                   fake := some { token := "aaaaa" } }⟩
      "foo@bar.com" "" = false :=
  ⟨emailCheck_eq_true_iff entries email, by decide, by decide⟩

/-- **C8** (confirmed): a preset with a non-empty `projects` set is
visible only when the supplied `projectID` is a member of the set, a
preset with an empty `projects` set passes the project check for every
`projectID`; concretely a preset restricted to `{"proj-A"}` is visible
in project `"proj-A"` but not in `"proj-B"` or the no-project context. -/
theorem c8_project_scoping (p : Preset) (email projectID : String) :
    (p.spec.projects ≠ [] → IsPresetVisible p email projectID = true →
      projectID ∈ p.spec.projects) ∧
    (p.spec.projects = [] → projectCheck p.spec.projects projectID = true) ∧
    IsPresetVisible ⟨"test-1", { projects := ["proj-A"], fake := some { token := "aaaaa" } }⟩
      email "proj-A" = true ∧
    IsPresetVisible ⟨"test-1", { projects := ["proj-A"], fake := some { token := "aaaaa" } }⟩
      email "proj-B" = false ∧
    IsPresetVisible ⟨"test-1", { projects := ["proj-A"], fake := some { token := "aaaaa" } }⟩
      email "" = false := by
  refine ⟨?_, ?_, by simp [IsPresetVisible, emailCheck, projectCheck],
    by simp [IsPresetVisible, projectCheck],
    by simp [IsPresetVisible, projectCheck]⟩
  · intro hne hvis
    rw [IsPresetVisible, Bool.and_eq_true] at hvis
    have hproj := hvis.2
    rw [projectCheck, Bool.or_eq_true, List.isEmpty_iff] at hproj
    rcases hproj with h | h
    · exact absurd h hne
    · simpa using h
  · intro hempty
    simp [projectCheck, hempty]

/-- **C8** witness. -/
theorem c8_project_scoping_witness :
    (["proj-A"] ≠ ([] : List String) →
      IsPresetVisible ⟨"test-1", { projects := ["proj-A"], fake := some { token := "aaaaa" } }⟩
        "test@example.com" "proj-A" = true →
      "proj-A" ∈ ["proj-A"]) ∧
    ((["proj-A"] : List String) = [] →
      projectCheck ["proj-A"] "proj-A" = true) ∧
    IsPresetVisible ⟨"test-1", { projects := ["proj-A"], fake := some { token := "aaaaa" } }⟩
      "test@example.com" "proj-A" = true ∧
    IsPresetVisible ⟨"test-1", { projects := ["proj-A"], fake := some { token := "aaaaa" } }⟩
      "test@example.com" "proj-B" = false ∧
    IsPresetVisible ⟨"test-1", { projects := ["proj-A"], fake := some { token := "aaaaa" } }⟩
      "test@example.com" "" = false :=
  c8_project_scoping ⟨"test-1", { projects := ["proj-A"], fake := some { token := "aaaaa" } }⟩
    "test@example.com" "proj-A"

/-- **C9** (confirmed): a preset with empty `requiredEmails` and empty
`projects` is visible to every user email in every project context, and
`GetPresets` always includes it. -/
theorem c9_generic_preset_always_visible (p : Preset) (email projectID : String)
    (presets : List Preset)
    (hre : p.spec.requiredEmails = []) (hpr : p.spec.projects = []) :
    IsPresetVisible p email projectID = true ∧
    (p ∈ presets → p ∈ GetPresets presets email projectID) := by
  have hvis : IsPresetVisible p email projectID = true := by
    simp [IsPresetVisible, emailCheck, projectCheck, hre, hpr]
  exact ⟨hvis, fun hmem => List.mem_filter.mpr ⟨hmem, hvis⟩⟩

/-- **C9** witness. -/
theorem c9_generic_preset_always_visible_witness :
    IsPresetVisible ⟨"test-3", { fake := some { token := "abc" } }⟩
      "test@example.com" "" = true ∧
    (⟨"test-3", { fake := some { token := "abc" } }⟩ ∈
        [(⟨"test-3", { fake := some { token := "abc" } }⟩ : Preset)] →
      (⟨"test-3", { fake := some { token := "abc" } }⟩ : Preset) ∈
        GetPresets [⟨"test-3", { fake := some { token := "abc" } }⟩]
          "test@example.com" "") :=
  c9_generic_preset_always_visible
    ⟨"test-3", { fake := some { token := "abc" } }⟩ "test@example.com" ""
    [⟨"test-3", { fake := some { token := "abc" } }⟩] rfl rfl

/-- **C2** (confirmed): whenever no stored preset both carries the
requested name and passes the visibility check — which covers both "no
preset has that name" and "a preset has that name but is not visible" —
`GetPreset` returns the `NotFound` error whose text is exactly
`preset.kubermatic.k8c.io "<name>" not found`, and `SetCloudCredentials`
propagates that very error (with a nil spec); the two cases produce the
same error value and are indistinguishable to the caller. -/
theorem c2_notfound_conflation (presets : List Preset) (email projectID name : String)
    (cs : CloudSpec) (dc : Option Datacenter)
    (h : ∀ p ∈ presets, ¬(p.name = name ∧ IsPresetVisible p email projectID = true)) :
    GetPreset presets email projectID name = .error (.notFound name) ∧
    (PresetError.notFound name).message
      = "preset.kubermatic.k8c.io \"" ++ name ++ "\" not found" ∧
    SetCloudCredentials presets email projectID name cs dc
      = (none, some (.notFound name)) := by
  have hfind : presets.find?
      (fun p => p.name == name && IsPresetVisible p email projectID) = none := by
    rw [List.find?_eq_none]
    intro x hx
    have hx' := h x hx
    simp only [Bool.and_eq_true, beq_iff_eq]
    exact fun hc => hx' ⟨hc.1, hc.2⟩
  have hget : GetPreset presets email projectID name = .error (.notFound name) := by
    simp only [GetPreset, hfind]
  exact ⟨hget, rfl, by simp only [SetCloudCredentials, hget]⟩

/-- **C2** witness (the `TestGetPreset` "test 3" store: preset `test-2`
exists but requires the `acme.com` domain). -/
theorem c2_notfound_conflation_witness :
    GetPreset
      [⟨"test-1", { fake := some { token := "aaaaa" } }⟩,
       ⟨"test-2", { requiredEmails := ["acme.com"], fake := some { token := "bbbbb" } }⟩,
       ⟨"test-3", { requiredEmails := ["test.com"], fake := some { token := "abc" } }⟩]
      "test@example.com" "" "test-2" = .error (.notFound "test-2") ∧
    (PresetError.notFound "test-2").message
      = "preset.kubermatic.k8c.io \"" ++ "test-2" ++ "\" not found" ∧
    SetCloudCredentials
      [⟨"test-1", { fake := some { token := "aaaaa" } }⟩,
       ⟨"test-2", { requiredEmails := ["acme.com"], fake := some { token := "bbbbb" } }⟩,
       ⟨"test-3", { requiredEmails := ["test.com"], fake := some { token := "abc" } }⟩]
      "test@example.com" "" "test-2" { azure := some {} } none
      = (none, some (.notFound "test-2")) :=
  c2_notfound_conflation _ "test@example.com" "" "test-2" { azure := some {} } none
    (by decide)

/-- **C4** (confirmed): on every error path of `SetCloudCredentials` —
preset not found, no provider variant set, or missing credential bundle
— the returned `CloudSpec` pointer is nil; no partially-populated spec
is ever returned together with an error. -/
theorem c4_nil_spec_on_error (presets : List Preset) (email projectID presetName : String)
    (cs : CloudSpec) (dc : Option Datacenter) (e : PresetError)
    (h : (SetCloudCredentials presets email projectID presetName cs dc).2 = some e) :
    (SetCloudCredentials presets email projectID presetName cs dc).1 = none := by
  cases hg : GetPreset presets email projectID presetName with
  | error e' => simp [SetCloudCredentials, hg]
  | ok p =>
    cases hp : cs.provider with
    | none => simp [SetCloudCredentials, hg, hp]
    | some prov =>
      cases hb : bindProvider p prov cs dc with
      | error e' => simp [SetCloudCredentials, hg, hp, hb]
      | ok cs' => simp [SetCloudCredentials, hg, hp, hb] at h

/-- **C4** witness (the error is `NotFound` on an empty store). -/
theorem c4_nil_spec_on_error_witness :
    (SetCloudCredentials [] "test@example.com" "" "test" {} none).2
      = some (.notFound "test") ∧
    (SetCloudCredentials [] "test@example.com" "" "test" {} none).1 = none :=
  ⟨rfl, c4_nil_spec_on_error [] "test@example.com" "" "test" {} none
    (.notFound "test") rfl⟩

/-- **C5** (confirmed): binding the preset `test` (Fake bundle
`{Token: "abc"}`, the `TestCredentialEndpoint` "test 1" store) onto a
`CloudSpec` with an empty Fake variant yields
`CloudSpec{Fake: {Token: "abc"}}`, and applying `SetCloudCredentials` a
second time to that output with the same user, project, preset name and
datacenter yields the identical `CloudSpec`: the binding is idempotent. -/
theorem c5_fake_binding_idempotent :
    SetCloudCredentials
      [⟨"fake", { requiredEmails := ["com"], fake := some { token := "abcd" } }⟩,
       ⟨"test", { requiredEmails := ["example.com"], fake := some { token := "abc" } }⟩]
      "test@example.com" "fake-project" "test" { fake := some {} } none
      = (some { fake := some { token := "abc" } }, none) ∧
    SetCloudCredentials
      [⟨"fake", { requiredEmails := ["com"], fake := some { token := "abcd" } }⟩,
       ⟨"test", { requiredEmails := ["example.com"], fake := some { token := "abc" } }⟩]
      "test@example.com" "fake-project" "test" { fake := some { token := "abc" } } none
      = (some { fake := some { token := "abc" } }, none) :=
  ⟨rfl, rfl⟩

/-- **C3** (confirmed): once the preset resolves, `SetCloudCredentials`
fails with `InvalidArgument("can not find provider to set credentials")`
exactly when no provider variant of the input `CloudSpec` is populated,
and with `InvalidArgument("the preset <name> doesn't contain credential
for <Provider> provider")` exactly when the `CloudSpec` names a provider
for which the resolved preset carries no credential bundle. -/
theorem c3_invalid_argument_errors (presets : List Preset)
    (email projectID name : String) (cs : CloudSpec) (dc : Option Datacenter)
    (p : Preset) (hget : GetPreset presets email projectID name = .ok p) :
    ((SetCloudCredentials presets email projectID name cs dc).2
        = some .noProvider ↔ cs.provider = none) ∧
    (∀ prov, cs.provider = some prov →
      ((SetCloudCredentials presets email projectID name cs dc).2
          = some (.missingCredential p.name prov) ↔ p.hasBundle prov = false)) ∧
    PresetError.noProvider.message = "can not find provider to set credentials" ∧
    (∀ prov, (PresetError.missingCredential p.name prov).message
      = "the preset " ++ p.name ++ " doesn't contain credential for "
          ++ prov.name ++ " provider") := by
  refine ⟨?_, ?_, rfl, fun prov => rfl⟩
  · cases hp : cs.provider with
    | none => simp [SetCloudCredentials, hget, hp]
    | some prov =>
      simp only [SetCloudCredentials, hget, hp]
      cases hb : bindProvider p prov cs dc with
      | error e =>
        have he := bindProvider_error_eq p prov cs dc e hb
        subst he
        simp
      | ok cs' => simp
  · intro prov hp
    simp only [SetCloudCredentials, hget, hp]
    cases hb : bindProvider p prov cs dc with
    | error e =>
      have he := bindProvider_error_eq p prov cs dc e hb
      subst he
      have hmiss := (bindProvider_missing_iff p prov cs dc).mp hb
      simp [hmiss]
    | ok cs' =>
      cases hhb : p.hasBundle prov with
      | false =>
        have := (bindProvider_missing_iff p prov cs dc).mpr hhb
        rw [this] at hb
        exact absurd hb (by simp)
      | true => simp

/-- **C3** witness (the `TestCredentialEndpoint` "test 10"/"test 11"
store: preset `test` visible, carrying no Azure bundle). -/
theorem c3_invalid_argument_errors_witness :
    ((SetCloudCredentials
        [⟨"test", { requiredEmails := ["example.com"] }⟩]
        "test@example.com" "fake-project" "test" { azure := some {} } none).2
      = some .noProvider ↔
      CloudSpec.provider { azure := some {} } = none) ∧
    (∀ prov, CloudSpec.provider { azure := some {} } = some prov →
      ((SetCloudCredentials
          [⟨"test", { requiredEmails := ["example.com"] }⟩]
          "test@example.com" "fake-project" "test" { azure := some {} } none).2
        = some (.missingCredential "test" prov) ↔
        Preset.hasBundle ⟨"test", { requiredEmails := ["example.com"] }⟩ prov = false)) ∧
    PresetError.noProvider.message = "can not find provider to set credentials" ∧
    (∀ prov, (PresetError.missingCredential "test" prov).message
      = "the preset " ++ "test" ++ " doesn't contain credential for "
          ++ prov.name ++ " provider") :=
  c3_invalid_argument_errors [⟨"test", { requiredEmails := ["example.com"] }⟩]
    "test@example.com" "fake-project" "test" { azure := some {} } none
    ⟨"test", { requiredEmails := ["example.com"] }⟩ rfl

/-- **C6** (confirmed): `SetCloudCredentials` applies provider-specific
defaults sourced from the datacenter argument rather than the preset —
the Packet billing cycle falls back to `"hourly"` when unset, the
VSphere storage policy to the datacenter's `defaultStoragePolicy`, and
the Openstack enforce-floating-IP flag comes from the datacenter — and
each such default applies only as a fallback when the corresponding
`CloudSpec` field is not already set and the preset provides no
override (`firstNonEmpty` keeps a non-empty value and only then falls
back; an already-raised `useFloatingIP` flag is kept). -/
theorem c6_datacenter_defaults (presets : List Preset)
    (email projectID name : String) (cs : CloudSpec) (dc : Option Datacenter)
    (p : Preset) (hget : GetPreset presets email projectID name = .ok p) :
    (∀ b, p.spec.packet = some b → cs.provider = some .packet →
      SetCloudCredentials presets email projectID name cs dc =
        (some { cs with packet := some {
            apiKey := b.apiKey, projectID := b.projectID,
            billingCycle := firstNonEmpty b.billingCycle
              (firstNonEmpty (cs.packet.getD {}).billingCycle "hourly") } }, none)) ∧
    (∀ b, p.spec.vsphere = some b → cs.provider = some .vsphere →
      SetCloudCredentials presets email projectID name cs dc =
        (some { cs with vsphere := some {
            username := b.username, password := b.password,
            storagePolicy := firstNonEmpty b.storagePolicy
              (firstNonEmpty (cs.vsphere.getD {}).storagePolicy
                (dcDefaultStoragePolicy dc)) } }, none)) ∧
    (∀ b, p.spec.openstack = some b → cs.provider = some .openstack →
      SetCloudCredentials presets email projectID name cs dc =
        (some { cs with openstack := some {
            username := b.username, password := b.password,
            project := b.project, domain := b.domain,
            useFloatingIP := (cs.openstack.getD {}).useFloatingIP
              || dcEnforceFloatingIP dc } }, none)) ∧
    (∀ fb, firstNonEmpty "" fb = fb) ∧
    (∀ s fb, s ≠ "" → firstNonEmpty s fb = s) := by
  refine ⟨?_, ?_, ?_, fun fb => rfl, fun s fb hs => by simp [firstNonEmpty, hs]⟩
  · intro b hb hp
    simp [SetCloudCredentials, hget, hp, bindProvider, hb]
  · intro b hb hp
    simp [SetCloudCredentials, hget, hp, bindProvider, hb]
  · intro b hb hp
    simp [SetCloudCredentials, hget, hp, bindProvider, hb]

/-- **C6** witness (the `TestCredentialEndpoint` "test 5", "test 8" and
"test 7" scenarios: Packet with no billing cycle anywhere, VSphere with
a datacenter default storage policy, Openstack with an unset flag and a
non-enforcing datacenter). -/
theorem c6_datacenter_defaults_witness :
    SetCloudCredentials
      [⟨"test", { requiredEmails := ["example.com"],
                  packet := some { apiKey := "secret", projectID := "project" } }⟩]
      "test@example.com" "fake-project" "test" { packet := some {} } none
      = (some { packet := some { apiKey := "secret", projectID := "project",
                                 billingCycle := "hourly" } }, none) ∧
    SetCloudCredentials
      [⟨"test", { requiredEmails := ["example.com"],
                  vsphere := some { username := "bob", password := "secret" } }⟩]
      "test@example.com" "fake-project" "test" { vsphere := some {} }
      (some { vsphere := some { defaultStoragePolicy := "fake_storage_policy" } })
      = (some { vsphere := some { username := "bob", password := "secret",
                                  storagePolicy := "fake_storage_policy" } }, none) ∧
    SetCloudCredentials
      [⟨"test", { requiredEmails := ["example.com"],
                  openstack := some { username := "d", password := "c",
                                      project := "a", domain := "b" } }⟩]
      "test@example.com" "fake-project" "test" { openstack := some {} }
      (some { openstack := some { enforceFloatingIP := false } })
      = (some { openstack := some { username := "d", password := "c",
                                    project := "a", domain := "b",
                                    useFloatingIP := false } }, none) := by
  refine ⟨?_, ?_, ?_⟩
  · exact (c6_datacenter_defaults
      [⟨"test", { requiredEmails := ["example.com"],
                  packet := some { apiKey := "secret", projectID := "project" } }⟩]
      "test@example.com" "fake-project" "test" { packet := some {} } none
      ⟨"test", { requiredEmails := ["example.com"],
                 packet := some { apiKey := "secret", projectID := "project" } }⟩
      rfl).1 _ rfl rfl
  · exact (c6_datacenter_defaults
      [⟨"test", { requiredEmails := ["example.com"],
                  vsphere := some { username := "bob", password := "secret" } }⟩]
      "test@example.com" "fake-project" "test" { vsphere := some {} }
      (some { vsphere := some { defaultStoragePolicy := "fake_storage_policy" } })
      ⟨"test", { requiredEmails := ["example.com"],
                 vsphere := some { username := "bob", password := "secret" } }⟩
      rfl).2.1 _ rfl rfl
  · exact (c6_datacenter_defaults
      [⟨"test", { requiredEmails := ["example.com"],
                  openstack := some { username := "d", password := "c",
                                      project := "a", domain := "b" } }⟩]
      "test@example.com" "fake-project" "test" { openstack := some {} }
      (some { openstack := some { enforceFloatingIP := false } })
      ⟨"test", { requiredEmails := ["example.com"],
                 openstack := some { username := "d", password := "c",
                                     project := "a", domain := "b" } }⟩
      rfl).2.2.1 _ rfl rfl

/-- `getDistributionName` succeeds exactly when some operating-system
variant is populated, and otherwise fails with
`"no operating system set"`. -/
theorem getDistributionName_cases (os : OperatingSystemSpec) :
    (os.hasVariant = true ∧ ∃ d, getDistributionName os = .ok d) ∨
    (os.hasVariant = false ∧
      getDistributionName os = .error "no operating system set") := by
  unfold getDistributionName OperatingSystemSpec.hasVariant
  cases h1 : os.ubuntu.isSome <;> simp [h1]
  cases h2 : os.containerLinux.isSome <;> simp [h2]
  cases h3 : os.flatcar.isSome <;> simp [h3]
  cases h4 : os.centos.isSome <;> simp [h4]
  cases h5 : os.sles.isSome <;> simp [h5]
  cases h6 : os.rhel.isSome <;> simp [h6]
  cases h7 : os.rockyLinux.isSome <;> simp [h7]
  cases h8 : os.amazonLinux.isSome <;> simp [h8]
  simp_all

/-- `getProviderName` succeeds exactly when some node cloud variant is
populated, and otherwise fails with `"no cloud provider set"`. -/
theorem getProviderName_cases (cp : NodeCloudSpec) :
    (cp.hasVariant = true ∧ ∃ pr, getProviderName cp = .ok pr) ∨
    (cp.hasVariant = false ∧
      getProviderName cp = .error "no cloud provider set") := by
  unfold getProviderName NodeCloudSpec.hasVariant
  cases h1 : cp.digitalocean.isSome <;> simp [h1]
  cases h2 : cp.aws.isSome <;> simp [h2]
  cases h3 : cp.azure.isSome <;> simp [h3]
  cases h4 : cp.openstack.isSome <;> simp [h4]
  cases h5 : cp.packet.isSome <;> simp [h5]
  cases h6 : cp.hetzner.isSome <;> simp [h6]
  cases h7 : cp.vsphere.isSome <;> simp [h7]
  cases h8 : cp.gcp.isSome <;> simp [h8]
  cases h9 : cp.kubevirt.isSome <;> simp [h9]
  cases h10 : cp.alibaba.isSome <;> simp [h10]
  cases h11 : cp.anexia.isSome <;> simp [h11]
  cases h12 : cp.nutanix.isSome <;> simp [h12]
  cases h13 : cp.vmwareCloudDirector.isSome <;> simp [h13]
  simp_all

/-- A spec with no populated variant has variant count zero. -/
theorem osVariantCount_eq_zero (os : OperatingSystemSpec)
    (h : os.hasVariant = false) : os.variantCount = 0 := by
  simp only [OperatingSystemSpec.hasVariant, Bool.or_eq_false_iff] at h
  obtain ⟨⟨⟨⟨⟨⟨⟨h1, h2⟩, h3⟩, h4⟩, h5⟩, h6⟩, h7⟩, h8⟩ := h
  simp [OperatingSystemSpec.variantCount, h1, h2, h3, h4, h5, h6, h7, h8]

/-- A node cloud spec with no populated variant has variant count zero. -/
theorem cpVariantCount_eq_zero (cp : NodeCloudSpec)
    (h : cp.hasVariant = false) : cp.variantCount = 0 := by
  simp only [NodeCloudSpec.hasVariant, Bool.or_eq_false_iff] at h
  obtain ⟨⟨⟨⟨⟨⟨⟨⟨⟨⟨⟨⟨h1, h2⟩, h3⟩, h4⟩, h5⟩, h6⟩, h7⟩, h8⟩, h9⟩, h10⟩, h11⟩, h12⟩, h13⟩ := h
  simp [NodeCloudSpec.variantCount, h1, h2, h3, h4, h5, h6, h7, h8, h9, h10,
    h11, h12, h13]

/-- **C10** (confirmed): with exactly one operating-system variant and
exactly one node cloud variant populated, `GetSSHUserName` never errors;
a `"Provider:Distribution"` pair absent from the static `userNameMap`
yields `"unknown"` with a nil error; and an error arises only from an
unpopulated operating system (`"no operating system set"`) or an
unpopulated cloud provider (`"no cloud provider set"`). -/
theorem c10_get_ssh_username_total (os : OperatingSystemSpec) (cp : NodeCloudSpec) :
    (os.variantCount = 1 → cp.variantCount = 1 →
      ∃ s, GetSSHUserName os cp = .ok s) ∧
    (∀ d pr, getDistributionName os = .ok d → getProviderName cp = .ok pr →
      userNameMap.lookup (pr ++ ":" ++ d) = none →
      GetSSHUserName os cp = .ok "unknown") ∧
    (∀ e, GetSSHUserName os cp = .error e →
      (e = "no operating system set" ∧ os.hasVariant = false) ∨
      (e = "no cloud provider set" ∧ cp.hasVariant = false)) := by
  refine ⟨?_, ?_, ?_⟩
  · intro hos hcp
    obtain ⟨-, d, hd⟩ | ⟨hv, -⟩ := getDistributionName_cases os
    · obtain ⟨-, pr, hpr⟩ | ⟨hv, -⟩ := getProviderName_cases cp
      · cases hlook : userNameMap.lookup (pr ++ ":" ++ d) with
        | none => exact ⟨"unknown", by simp [GetSSHUserName, hd, hpr, hlook]⟩
        | some loginName => exact ⟨loginName, by simp [GetSSHUserName, hd, hpr, hlook]⟩
      · rw [cpVariantCount_eq_zero cp hv] at hcp
        exact absurd hcp (by simp)
    · rw [osVariantCount_eq_zero os hv] at hos
      exact absurd hos (by simp)
  · intro d pr hd hpr hlook
    simp [GetSSHUserName, hd, hpr, hlook]
  · intro e he
    obtain ⟨-, d, hd⟩ | ⟨hv, herr⟩ := getDistributionName_cases os
    · obtain ⟨-, pr, hpr⟩ | ⟨hv, herr⟩ := getProviderName_cases cp
      · cases hlook : userNameMap.lookup (pr ++ ":" ++ d) <;>
          simp [GetSSHUserName, hd, hpr, hlook] at he
      · rw [GetSSHUserName, hd, herr] at he
        exact Or.inr ⟨(Except.error.inj he).symm, hv⟩
    · rw [GetSSHUserName, herr] at he
      exact Or.inl ⟨(Except.error.inj he).symm, hv⟩

/-- **C10** witness: `Ubuntu`+`AWS` resolves (to `"ubuntu"`), the absent
pair `AWS:SLES` yields `"unknown"`, and an empty operating-system spec
is reported as `"no operating system set"`. -/
theorem c10_get_ssh_username_total_witness :
    (∃ s, GetSSHUserName { ubuntu := some () } { aws := some () } = .ok s) ∧
    GetSSHUserName { sles := some () } { aws := some () } = .ok "unknown" ∧
    (("no operating system set" = "no operating system set" ∧
        OperatingSystemSpec.hasVariant {} = false) ∨
      ("no operating system set" = "no cloud provider set" ∧
        NodeCloudSpec.hasVariant { aws := some () } = false)) := by
  refine ⟨?_, ?_, ?_⟩
  · exact (c10_get_ssh_username_total { ubuntu := some () } { aws := some () }).1
      rfl rfl
  · exact (c10_get_ssh_username_total { sles := some () } { aws := some () }).2.1
      "SLES" "AWS" rfl rfl rfl
  · exact (c10_get_ssh_username_total {} { aws := some () }).2.2
      "no operating system set" rfl

end Dashboard
